import Mathlib

/-!
Verification development for the go.fracserv repository (a fractal tile
server). The Go source is shallowly embedded:

* `image.Point` becomes `Point` with integer fields.
* Go `float64` values are idealised: the navigator zoom uses `ℝ`
  (the scale is the transcendental `2 ^ z`), while the HSV colour mapper
  uses `ℚ` so that its floor / mod arithmetic stays executable.
* Go standard-library collaborators that are external to this repository
  (`strconv.ParseFloat`, `png.Encode`, the generator constructors behind
  the `factory` map, `time.Now`) are abstracted as explicit parameters.
* Stateful code (the tile cache, the filesystem touched by
  `savePngFromCache`, the HTTP response writer) becomes explicit state
  passing: `drawFractal` returns the response, the new cache and the
  observable effects (generator invoked, persistence started).
-/

/-! ### fractal.go: image.Point and the default navigator -/

/-- Embedding of `image.Point` (integer pixel coordinates). -/
structure Point where
  x : ℤ
  y : ℤ
deriving DecidableEq

/-- Embedding of `fractal.DefaultNavigator`: a zoom level `z` (Go
`float64`, idealised as `ℝ`) and a pixel offset. -/
structure DefaultNavigator where
  z : ℝ
  offset : Point

/-- Embedding of `fractal.NewDefaultNavigator`. -/
def NewDefaultNavigator (z : ℝ) (xoff yoff : ℤ) : DefaultNavigator :=
  ⟨z, ⟨xoff, yoff⟩⟩

/-- Embedding of `(*DefaultNavigator).Transform`: `x := p.X + offset.X`,
`y := p.Y + offset.Y`, `z := math.Pow(2, n.z)`, returns `(x/z, y/z)`. -/
noncomputable def DefaultNavigator.Transform (n : DefaultNavigator) (p : Point) : ℝ × ℝ :=
  let x : ℤ := p.x + n.offset.x
  let y : ℤ := p.y + n.offset.y
  let zf : ℝ := (2 : ℝ) ^ n.z
  ((x : ℝ) / zf, (y : ℝ) / zf)

/-- Embedding of `(*DefaultNavigator).Translate` (sets the offset). -/
def DefaultNavigator.Translate (n : DefaultNavigator) (offset : Point) : DefaultNavigator :=
  { n with offset := offset }

/-- Embedding of `(*DefaultNavigator).Zoom` (sets the zoom level). -/
def DefaultNavigator.Zoom (n : DefaultNavigator) (z : ℝ) : DefaultNavigator :=
  { n with z := z }

/-! ### fractal.go: request options (url.Values with typed accessors) -/

/-- Embedding of `url.Values`: a finite association of string keys to
lists of string values. -/
def Values := List (String × List String)

/-- Embedding of `url.Values.Get`: the first value associated to the
key, or the empty string when the key is absent or has no values. -/
def Values.get (v : Values) (key : String) : String :=
  match v.find? (fun kv => kv.1 == key) with
  | some (_, s :: _) => s
  | _ => ""

/-- Embedding of `fractal.Options` (wraps `url.Values`). -/
structure Options where
  values : Values

/-- Embedding of the embedded `url.Values.Get` on `fractal.Options`. -/
def Options.Get (o : Options) (k : String) : String := o.values.get k

/-- Helper for the `strconv.Atoi` model: a nonempty all-ASCII-digit
character list read as a base-10 natural number. -/
def digitsToNat (cs : List Char) : Option ℕ :=
  if cs = [] then none
  else if cs.all (fun c => c.isDigit) then
    some (cs.foldl (fun acc c => 10 * acc + (c.toNat - 48)) 0)
  else none

/-- Model of `strconv.Atoi` (Go standard library): an optional sign
followed by at least one ASCII digit, failing on any other input and on
64-bit signed overflow. -/
def goAtoi (s : String) : Option ℤ :=
  let signed : Option ℤ :=
    match s.data with
    | '+' :: rest => (digitsToNat rest).map (fun n => (n : ℤ))
    | '-' :: rest => (digitsToNat rest).map (fun n => -(n : ℤ))
    | l => (digitsToNat l).map (fun n => (n : ℤ))
  match signed with
  | some v => if v < -(2 ^ 63) ∨ 2 ^ 63 - 1 < v then none else some v
  | none => none

/-- Embedding of `Options.GetIntDefault`: parse the value under `k` with
`strconv.Atoi`; on any error return the caller-supplied default `d`. -/
def Options.GetIntDefault (o : Options) (k : String) (d : ℤ) : ℤ :=
  match goAtoi (o.Get k) with
  | none => d
  | some v => v

/-- Embedding of `Options.GetFloat64Default`. `strconv.ParseFloat` is an
external standard-library collaborator, abstracted as the `parseFloat`
parameter; on a parse failure the caller-supplied default `d` is
returned. -/
def Options.GetFloat64Default (o : Options) (parseFloat : String → Option ℚ)
    (k : String) (d : ℚ) : ℚ :=
  match parseFloat (o.Get k) with
  | none => d
  | some v => v

/-! ### fractal.go: the HSV to RGBA colour mapper -/

/-- Embedding of `color.RGBA` (four 8-bit channels, held as `ℕ`). -/
structure RGBA where
  r : ℕ
  g : ℕ
  b : ℕ
  a : ℕ
deriving DecidableEq

/-- Go conversion `uint8(x)` for the in-range channel values produced by
`HSVToRGBA` (truncation toward zero; channel inputs are nonnegative). -/
def u8 (x : ℚ) : ℕ := (⌊x⌋).toNat

/-- Embedding of the local `RGB` closure in `HSVToRGBA`: scales each
channel by 255 and fixes alpha at 255. -/
def RGB (r g b : ℚ) : RGBA := ⟨u8 (r * 255), u8 (g * 255), u8 (b * 255), 255⟩

/-- Embedding of the `switch hi` statement of `HSVToRGBA`; the final
branch is the Go zero value `color.RGBA{}` left when no case matches. -/
def hsvSwitch (hi : ℤ) (v p q t : ℚ) : RGBA :=
  if hi = 0 then RGB v t p
  else if hi = 1 then RGB q v p
  else if hi = 2 then RGB p v t
  else if hi = 3 then RGB p q v
  else if hi = 4 then RGB t p v
  else if hi = 5 then RGB v p q
  else ⟨0, 0, 0, 0⟩

/-- Embedding of `fractal.HSVToRGBA`. `math.Floor` is `Int.floor`;
`math.Mod` keeps the sign of its first argument, which on the integer
value `⌊h/60⌋` is exactly `Int.tmod`. Inputs are idealised as `ℚ`. -/
def HSVToRGBA (h s v : ℚ) : RGBA :=
  let hi : ℤ := (⌊h / 60⌋).tmod 6
  let f : ℚ := h / 60 - ⌊h / 60⌋
  let p : ℚ := v * (1 - s)
  let q : ℚ := v * (1 - f * s)
  let t : ℚ := v * (1 - (1 - f) * s)
  hsvSwitch hi v p q t

/-! ### fracserv.go: cache entries, the tile cache, key normalization -/

/-- Embedding of `cachedPng`: an encoded byte payload (bytes as `ℕ`)
together with the render timestamp (time in seconds, as `ℤ`). -/
structure CachedPng where
  timestamp : ℤ
  bytes : List ℕ
deriving DecidableEq

/-- Embedding of `(cachedPng).Size`: the byte length of the payload. -/
def CachedPng.size (c : CachedPng) : ℕ := c.bytes.length

/-- Modelled from the spec: the `cache` package imported by fracserv.go
is part of this repository but is not under src/. Section 4.4 of the
spec gives its contract: a keyed store with `get(key) -> (entry, found)`
and `add(key, entry)` insert-or-replace, at most one live entry per key.
It is modelled as an association list. -/
def Cache := List (String × CachedPng)

instance : DecidableEq Cache := fun a b => List.hasDecEq a b

/-- Modelled from the spec: `cache.Get` returns the entry stored under
the key, if any. -/
def Cache.Get (c : Cache) (k : String) : Option CachedPng :=
  (c.find? (fun kv => kv.1 == k)).map (fun kv => kv.2)

/-- Modelled from the spec: `cache.Add` inserts or replaces the entry
under the key (at most one live entry per key). -/
def Cache.Add (c : Cache) (k : String) (e : CachedPng) : Cache :=
  (k, e) :: c.filter (fun kv => ¬ kv.1 == k)

/-- Embedding of the local `cleanup` closure of `fsNameFromURL`:
replaces `?` with `/` and `&` with `,`, leaving other runes alone. -/
def cleanup (r : Char) : Char :=
  match r with
  | '?' => '/'
  | '&' => ','
  | _ => r

/-- Embedding of `fsNameFromURL`: `strings.Map(cleanup, url)` (the
cleanup function never drops a rune, so it is a plain character map). -/
def fsNameFromURL (url : String) : String := String.mk (url.data.map cleanup)

/-- Embedding of the path derivation `cachefn := cacheDir + cacheKey`
in `savePngFromCache`. -/
def cachefn (cacheDir cacheKey : String) : String := cacheDir ++ cacheKey

/-! ### fracserv.go: disk persistence -/

/-- Metadata of one file in the modelled filesystem: content bytes plus
modification and access times. -/
structure FileMeta where
  bytes : List ℕ
  mtime : ℤ
  atime : ℤ
deriving DecidableEq

/-- The filesystem as a partial map from paths to file metadata.
Directories are not modelled (no claim concerns the `os.Mkdir` call). -/
def FS := String → Option FileMeta

/-- Embedding of `savePngFromCache`: look the key up in the png cache
(missing entry: log and return); if a file already exists at
`cacheDir + cacheKey`, log and return; otherwise create the file with
the payload bytes (the OS stamps it with the wall-clock time `now`) and
then `os.Chtimes` rewrites both times to the render timestamp of the
entry. -/
def savePngFromCache (pngCache : Cache) (cacheDir : String) (now : ℤ)
    (cacheKey : String) (fs : FS) : FS :=
  match pngCache.Get cacheKey with
  | none => fs
  | some cp =>
    let fn := cachefn cacheDir cacheKey
    match fs fn with
    | some _ => fs
    | none =>
      let afterWrite : FS := fun p => if p = fn then some ⟨cp.bytes, now, now⟩ else fs p
      let afterChtimes : FS := fun p =>
        if p = fn then (afterWrite p).map (fun m => ⟨m.bytes, cp.timestamp, cp.timestamp⟩)
        else afterWrite p
      afterChtimes

/-! ### fracserv.go: the render handler drawFractal -/

/-- Body of an HTTP response: either raw bytes written by the handler or
the plain-text body produced by `http.Error`. -/
inductive Body
  | bytes (bs : List ℕ)
  | text (s : String)
deriving DecidableEq

/-- Observable HTTP response: status, the explicitly set headers
(`none` when the handler sets no such header) and the body. Header
times are held as the underlying timestamps (`http.TimeFormat`
rendering is not modelled). -/
structure Response where
  status : ℕ
  contentType : Option String
  lastModified : Option ℤ
  expires : Option ℤ
  body : Body
deriving DecidableEq

/-- One hour, in the seconds-valued time model (`time.Hour`). -/
def hour : ℤ := 3600

/-- Embedding of `http.Error(w, e, 500)`: plain-text body `e`
followed by a newline, no image headers. -/
def httpError (e : String) : Response :=
  ⟨500, some "text/plain; charset=utf-8", none, none, Body.text (e ++ "\n")⟩

/-- Embedding of lines 177-181 of fracserv.go: respond with the bytes of
a cache entry, Content-Type image/png, Last-Modified at the entry
timestamp and Expires one hour later. -/
def respondCached (cp : CachedPng) : Response :=
  ⟨200, some "image/png", some cp.timestamp, some (cp.timestamp + hour), Body.bytes cp.bytes⟩

/-- Result of one `drawFractal` call: the response, the png cache
afterwards, whether the generator constructor was invoked, and the key
for which an asynchronous `savePngFromCache` was started (if any). -/
structure DrawResult where
  resp : Response
  cache : Cache
  genCalled : Bool
  persistKey : Option String
deriving DecidableEq

/-- Embedding of `drawFractal`. External collaborators are parameters:
`gen` is the `factory[fracType]` constructor, `encode` is `png.Encode`
(returning the bytes it wrote and an optional error - the Go code
discards that error in both branches), `now` is `time.Now()`.
With the cache disabled: render, encode straight to the response, done.
Otherwise: derive the cache key from the request URI, look it up, on a
miss render, encode to a buffer, insert, start the asynchronous disk
save, and in either case respond from the entry. -/
def drawFractal {Img : Type} (disableCache : Bool)
    (gen : Options → Except String Img)
    (encode : Img → List ℕ × Option String)
    (pngCache : Cache) (now : ℤ)
    (requestURI : String) (query : Values) : DrawResult :=
  if disableCache then
    match gen ⟨query⟩ with
    | Except.error e => ⟨httpError e, pngCache, true, none⟩
    | Except.ok i =>
      let enc := encode i
      ⟨⟨200, none, none, none, Body.bytes enc.1⟩, pngCache, true, none⟩
  else
    let cacheKey := fsNameFromURL requestURI
    match pngCache.Get cacheKey with
    | some cp => ⟨respondCached cp, pngCache, false, none⟩
    | none =>
      match gen ⟨query⟩ with
      | Except.error e => ⟨httpError e, pngCache, true, none⟩
      | Except.ok i =>
        let enc := encode i
        let cp : CachedPng := ⟨now, enc.1⟩
        ⟨respondCached cp, pngCache.Add cacheKey cp, true, some cacheKey⟩

/-! ### Claims about the navigator (C1, C8) -/

/-- C1: for every zoom z, offset (ox,oy) and pixel (px,py), Transform on
a navigator whose current zoom is z and offset is (ox,oy) returns
exactly ((px+ox)/2^z, (py+oy)/2^z): the offset is added in pixel space
before dividing by the base-2 exponential scale. -/
theorem navigator_transform_formula (z : ℝ) (ox oy px py : ℤ) :
    (((NewDefaultNavigator 0 0 0).Zoom z).Translate ⟨ox, oy⟩).Transform ⟨px, py⟩ =
      (((px + ox : ℤ) : ℝ) / (2 : ℝ) ^ z, ((py + oy : ℤ) : ℝ) / (2 : ℝ) ^ z) := rfl

/-- C8 counterexample: the fixture row with zoom 1, offset (4,4) and
pixel (0,0) does not yield (4,4); the code computes (0+4)/2^1 = 2 in
each coordinate. -/
theorem navigator_fixture_row2_counterexample :
    (NewDefaultNavigator 1 4 4).Transform ⟨0, 0⟩ ≠ ((4 : ℝ), (4 : ℝ)) := by
  intro heq
  have h1 := congrArg Prod.fst heq
  simp only [NewDefaultNavigator, DefaultNavigator.Transform, Real.rpow_one] at h1
  norm_num at h1

/-- C8 amended: the fixture table holds with the second row changed to
(2,2), the value the code computes there: rows (1,(0,0),(0,0)) to (0,0),
(1,(4,4),(0,0)) to (2,2), (4,(0,0),(0,0)) to (0,0), (4,(0,0),(4,4)) to
(0.25,0.25), (4,(4,4),(0,0)) to (0.25,0.25), (4,(4,4),(4,4)) to
(0.5,0.5). -/
theorem navigator_fixture_table :
    (NewDefaultNavigator 1 0 0).Transform ⟨0, 0⟩ = ((0 : ℝ), (0 : ℝ)) ∧
    (NewDefaultNavigator 1 4 4).Transform ⟨0, 0⟩ = ((2 : ℝ), (2 : ℝ)) ∧
    (NewDefaultNavigator 4 0 0).Transform ⟨0, 0⟩ = ((0 : ℝ), (0 : ℝ)) ∧
    (NewDefaultNavigator 4 0 0).Transform ⟨4, 4⟩ = ((0.25 : ℝ), (0.25 : ℝ)) ∧
    (NewDefaultNavigator 4 4 4).Transform ⟨0, 0⟩ = ((0.25 : ℝ), (0.25 : ℝ)) ∧
    (NewDefaultNavigator 4 4 4).Transform ⟨4, 4⟩ = ((0.5 : ℝ), (0.5 : ℝ)) := by
  have h2 : (2 : ℝ) ^ (1 : ℝ) = 2 := Real.rpow_one 2
  have h16 : (2 : ℝ) ^ (4 : ℝ) = 16 := by
    rw [show (4 : ℝ) = ((4 : ℕ) : ℝ) by norm_num, Real.rpow_natCast]
    norm_num
  refine ⟨?_, ?_, ?_, ?_, ?_, ?_⟩ <;>
    simp only [NewDefaultNavigator, DefaultNavigator.Transform, h2, h16, Prod.ext_iff] <;>
    norm_num

/-! ### Claims about the colour mapper (C7) -/

/-- Helper: every reachable case of the switch in HSVToRGBA produces a
fully opaque colour; only the fall-through zero value does not. -/
theorem hsvSwitch_alpha (hi : ℤ) (v p q t : ℚ) (h0 : 0 ≤ hi) (h6 : hi < 6) :
    (hsvSwitch hi v p q t).a = 255 := by
  interval_cases hi <;> rfl

/-- C7 counterexample: at hue -60 (saturation 1, value 1) the sector
index is -1, no switch case matches, and the Go zero value
color.RGBA{} is returned: the alpha channel is 0, not 255. -/
theorem hsv_negative_hue_counterexample :
    (HSVToRGBA (-60) 1 1).a = 0 := by
  have hfloor : ⌊(-60 : ℚ) / 60⌋ = -1 := by norm_num
  simp only [HSVToRGBA, hfloor]
  rfl

/-- C7 amended: for every nonnegative hue and saturation and value in
[0,1], the colour returned by HSVToRGBA has a fully opaque alpha
channel (255); this fails for some negative hues, such as hue -60,
where no switch case matches and the alpha channel is 0. -/
theorem hsv_alpha_opaque (h s v : ℚ) (hh : 0 ≤ h) (hs0 : 0 ≤ s) (hs1 : s ≤ 1)
    (hv0 : 0 ≤ v) (hv1 : v ≤ 1) : (HSVToRGBA h s v).a = 255 := by
  have h60 : (0 : ℚ) ≤ h / 60 := by positivity
  have hfl : 0 ≤ ⌊h / 60⌋ := Int.floor_nonneg.mpr h60
  have h0 : 0 ≤ (⌊h / 60⌋).tmod 6 := Int.tmod_nonneg 6 hfl
  have h6 : (⌊h / 60⌋).tmod 6 < 6 := Int.tmod_lt_of_pos _ (by norm_num)
  exact hsvSwitch_alpha ((⌊h / 60⌋).tmod 6) v _ _ _ h0 h6

/-- C7 witness: the amended theorem applied at hue 0, saturation 1,
value 1. -/
theorem hsv_alpha_opaque_witness : (HSVToRGBA 0 1 1).a = 255 :=
  hsv_alpha_opaque 0 1 1 (by norm_num) (by norm_num) (by norm_num) (by norm_num) (by norm_num)

/-! ### Claims about key normalization (C2, C10) -/

/-- Helper: looking a key up right after adding it returns the added
entry (the get-after-add guarantee of spec section 4.4). -/
theorem Cache.get_add_self (c : Cache) (k : String) (e : CachedPng) :
    (c.Add k e).Get k = some e := by
  unfold Cache.Get Cache.Add
  rw [List.find?_cons_of_pos _ (by simp)]
  rfl

/-- C2: the request-to-cache-key mapping replaces every question mark
with a slash and every ampersand with a comma, leaves every other
character unchanged, maps /mandelbrot?z=2&c=0,0 to
/mandelbrot/z=2,c=0,0, and the disk mirror path is the cache root
string concatenated with the key. -/
theorem cache_key_normalization :
    (∀ s : String, fsNameFromURL s = String.mk (s.data.map cleanup)) ∧
    cleanup '?' = '/' ∧
    cleanup '&' = ',' ∧
    (∀ c : Char, c ≠ '?' → c ≠ '&' → cleanup c = c) ∧
    fsNameFromURL "/mandelbrot?z=2&c=0,0" = "/mandelbrot/z=2,c=0,0" ∧
    (∀ dir key : String, cachefn dir key = dir ++ key) := by
  refine ⟨fun s => rfl, rfl, rfl, ?_, by decide, fun dir key => rfl⟩
  intro c h1 h2
  unfold cleanup
  split
  · exact absurd rfl h1
  · exact absurd rfl h2
  · rfl

/-- C2 witness: the per-character clause applied at the concrete
character a. -/
theorem cache_key_normalization_witness : cleanup 'a' = 'a' :=
  cache_key_normalization.2.2.2.1 'a' (by decide) (by decide)

/-- C10: the URI-to-cache-key mapping is not injective: the two distinct
request URIs /m?a=1,b=2 and /m?a=1&b=2 map to the same cache key, hence
to the same disk mirror path, and an entry cached under the key of the
first URI is returned for the key of the second. -/
theorem cache_key_not_injective :
    fsNameFromURL "/m?a=1,b=2" = fsNameFromURL "/m?a=1&b=2" ∧
    "/m?a=1,b=2" ≠ "/m?a=1&b=2" ∧
    (∀ dir : String, cachefn dir (fsNameFromURL "/m?a=1,b=2") =
      cachefn dir (fsNameFromURL "/m?a=1&b=2")) ∧
    (∀ (c : Cache) (e : CachedPng),
      (c.Add (fsNameFromURL "/m?a=1,b=2") e).Get (fsNameFromURL "/m?a=1&b=2") = some e) := by
  refine ⟨by decide, by decide, fun dir => rfl, fun c e => ?_⟩
  have hkeys : fsNameFromURL "/m?a=1,b=2" = fsNameFromURL "/m?a=1&b=2" := by decide
  rw [hkeys]
  exact Cache.get_add_self c _ e

/-! ### Claims about the typed option accessors (C6) -/

/-- C6: each typed accessor returns the parsed numeric value when the
first string value under the key parses, and returns exactly the
caller-supplied default when the key is absent or its value fails to
parse; no error reaches the request. -/
theorem options_defaulting (pf : String → Option ℚ) (o : Options) (k : String)
    (di : ℤ) (df : ℚ) :
    (∀ v : ℤ, goAtoi (o.Get k) = some v → o.GetIntDefault k di = v) ∧
    (goAtoi (o.Get k) = none → o.GetIntDefault k di = di) ∧
    (o.values.find? (fun kv => kv.1 == k) = none → o.GetIntDefault k di = di) ∧
    (∀ v : ℚ, pf (o.Get k) = some v → o.GetFloat64Default pf k df = v) ∧
    (pf (o.Get k) = none → o.GetFloat64Default pf k df = df) ∧
    (pf "" = none → o.values.find? (fun kv => kv.1 == k) = none →
      o.GetFloat64Default pf k df = df) := by
  refine ⟨?_, ?_, ?_, ?_, ?_, ?_⟩
  · intro v h
    unfold Options.GetIntDefault
    rw [h]
  · intro h
    unfold Options.GetIntDefault
    rw [h]
  · intro h
    have hget : o.Get k = "" := by
      unfold Options.Get Values.get
      rw [h]
    unfold Options.GetIntDefault
    rw [hget]
    rfl
  · intro v h
    unfold Options.GetFloat64Default
    rw [h]
  · intro h
    unfold Options.GetFloat64Default
    rw [h]
  · intro hpf h
    have hget : o.Get k = "" := by
      unfold Options.Get Values.get
      rw [h]
    unfold Options.GetFloat64Default
    rw [hget, hpf]

/-- C6 witness: with options a=12, b=xy the integer accessor parses 12
under a, returns the default 7 under the unparsable b and under the
absent c, and the float accessor returns the default 3/2 when the
parser fails. -/
theorem options_defaulting_witness :
    (Options.mk [("a", ["12"]), ("b", ["xy"])]).GetIntDefault "a" 7 = 12 ∧
    (Options.mk [("a", ["12"]), ("b", ["xy"])]).GetIntDefault "b" 7 = 7 ∧
    (Options.mk [("a", ["12"]), ("b", ["xy"])]).GetIntDefault "c" 7 = 7 ∧
    (Options.mk [("a", ["12"]), ("b", ["xy"])]).GetFloat64Default (fun _ => none) "a" (3/2) = 3/2 :=
  ⟨(options_defaulting (fun _ => none) _ "a" 7 0).1 12 (by decide),
   (options_defaulting (fun _ => none) _ "b" 7 0).2.1 (by decide),
   (options_defaulting (fun _ => none) _ "c" 7 0).2.2.1 (by decide),
   (options_defaulting (fun _ => none) _ "a" 7 (3/2)).2.2.2.2.1 rfl⟩

/-! ### Claims about disk persistence (C3) -/

/-- Helper: when the cache has no entry for the key, savePngFromCache
logs and leaves the filesystem untouched. -/
theorem savePng_cache_miss (pngCache : Cache) (cacheDir : String) (now : ℤ)
    (cacheKey : String) (fs : FS) (h : pngCache.Get cacheKey = none) :
    savePngFromCache pngCache cacheDir now cacheKey fs = fs := by
  unfold savePngFromCache
  rw [h]

/-- Helper: when a file already exists at the derived path,
savePngFromCache returns with the filesystem untouched. -/
theorem savePng_file_exists (pngCache : Cache) (cacheDir : String) (now : ℤ)
    (cacheKey : String) (fs : FS) (m : FileMeta)
    (hm : fs (cachefn cacheDir cacheKey) = some m) :
    savePngFromCache pngCache cacheDir now cacheKey fs = fs := by
  unfold savePngFromCache
  cases hget : pngCache.Get cacheKey with
  | none => rfl
  | some cp => simp [hm]

/-- Helper: on a fresh path the file is created with the payload bytes
and both times equal to the render timestamp of the cache entry. -/
theorem savePng_writes (pngCache : Cache) (cacheDir : String) (now : ℤ)
    (cacheKey : String) (fs : FS) (cp : CachedPng)
    (hget : pngCache.Get cacheKey = some cp)
    (hfs : fs (cachefn cacheDir cacheKey) = none) :
    savePngFromCache pngCache cacheDir now cacheKey fs (cachefn cacheDir cacheKey) =
      some ⟨cp.bytes, cp.timestamp, cp.timestamp⟩ ∧
    (∀ p : String, p ≠ cachefn cacheDir cacheKey →
      savePngFromCache pngCache cacheDir now cacheKey fs p = fs p) := by
  constructor
  · unfold savePngFromCache
    simp [hget, hfs]
  · intro p hp
    unfold savePngFromCache
    simp [hget, hfs, hp]

/-- C3: disk persistence is idempotent by file existence. If a file
already exists at the path derived from the key, the call changes
nothing, whatever the in-memory entry holds; if no file exists and the
cache holds an entry, the payload bytes are written and both file times
are set to the render timestamp of the entry and not to the wall-clock
write time now (the conclusion mentions only the entry timestamp for
every value of now); a repeated call is a no-op. -/
theorem savePng_idempotent_by_existence (pngCache : Cache) (cacheDir : String)
    (now now2 : ℤ) (cacheKey : String) (fs : FS) :
    (∀ m : FileMeta, fs (cachefn cacheDir cacheKey) = some m →
      savePngFromCache pngCache cacheDir now cacheKey fs = fs) ∧
    (∀ cp : CachedPng, pngCache.Get cacheKey = some cp →
      fs (cachefn cacheDir cacheKey) = none →
      savePngFromCache pngCache cacheDir now cacheKey fs (cachefn cacheDir cacheKey) =
        some ⟨cp.bytes, cp.timestamp, cp.timestamp⟩ ∧
      (∀ p : String, p ≠ cachefn cacheDir cacheKey →
        savePngFromCache pngCache cacheDir now cacheKey fs p = fs p)) ∧
    savePngFromCache pngCache cacheDir now2 cacheKey
        (savePngFromCache pngCache cacheDir now cacheKey fs) =
      savePngFromCache pngCache cacheDir now cacheKey fs := by
  refine ⟨fun m hm => savePng_file_exists _ _ _ _ _ m hm,
    fun cp hget hfs => savePng_writes _ _ _ _ _ cp hget hfs, ?_⟩
  cases hget : pngCache.Get cacheKey with
  | none =>
    rw [savePng_cache_miss _ _ now _ _ hget, savePng_cache_miss _ _ now2 _ _ hget]
  | some cp =>
    cases hfs : fs (cachefn cacheDir cacheKey) with
    | some m =>
      rw [savePng_file_exists _ _ now _ _ m hfs, savePng_file_exists _ _ now2 _ _ m hfs]
    | none =>
      have hw := (savePng_writes pngCache cacheDir now cacheKey fs cp hget hfs).1
      exact savePng_file_exists _ _ now2 _ _ _ hw

/-- C3 witness: with a cache holding entry (timestamp 5, bytes [9])
under key k, an empty filesystem and wall-clock time 99, the file
appears at the concatenated path with both times equal to 5; a second
call at time 77 changes nothing further. -/
theorem savePng_idempotent_by_existence_witness :
    savePngFromCache [("/k", ⟨5, [9]⟩)] "/d" 99 "/k" (fun _ => none) (cachefn "/d" "/k") =
      some ⟨[9], 5, 5⟩ ∧
    savePngFromCache [("/k", ⟨5, [9]⟩)] "/d" 77 "/k"
        (savePngFromCache [("/k", ⟨5, [9]⟩)] "/d" 99 "/k" (fun _ => none)) =
      savePngFromCache [("/k", ⟨5, [9]⟩)] "/d" 99 "/k" (fun _ => none) :=
  ⟨((savePng_idempotent_by_existence [("/k", ⟨5, [9]⟩)] "/d" 99 77 "/k"
      (fun _ => none)).2.1 ⟨5, [9]⟩ (by decide) rfl).1,
   (savePng_idempotent_by_existence [("/k", ⟨5, [9]⟩)] "/d" 99 77 "/k"
      (fun _ => none)).2.2⟩

/-! ### Claims about the render handler (C4, C5, C9) -/

/-- C4 counterexample: with the cache-disable flag set, a successful
render writes only the PNG bytes; no Last-Modified, Expires or
Content-Type header is set by the handler, against the claim that every
successful render - including with the flag set - carries Last-Modified
at the render timestamp and Expires one hour later. -/
theorem drawFractal_disabled_no_headers :
    (drawFractal true (fun _ : Options => Except.ok ()) (fun _ : Unit => ([1, 2], none))
        [] 0 "/m?a=1" [("a", ["1"])]).resp.lastModified = none ∧
    (drawFractal true (fun _ : Options => Except.ok ()) (fun _ : Unit => ([1, 2], none))
        [] 0 "/m?a=1" [("a", ["1"])]).resp.expires = none ∧
    (drawFractal true (fun _ : Options => Except.ok ()) (fun _ : Unit => ([1, 2], none))
        [] 0 "/m?a=1" [("a", ["1"])]).resp.status = 200 :=
  ⟨rfl, rfl, rfl⟩

/-- C4 amended: with the cache enabled, every successful render
responds 200 with Content-Type image/png, Last-Modified at the served
entry render timestamp, Expires exactly one hour later, and the entry
bytes as body (on a miss the entry timestamp is the render wall clock
and the bytes are whatever the encoder wrote); with the cache-disable
flag set only the encoded bytes are written, with none of those headers
set by the handler. -/
theorem drawFractal_success_headers {Img : Type} (gen : Options → Except String Img)
    (encode : Img → List ℕ × Option String) (pngCache : Cache) (now : ℤ)
    (requestURI : String) (query : Values) :
    (∀ cp : CachedPng, pngCache.Get (fsNameFromURL requestURI) = some cp →
      (drawFractal false gen encode pngCache now requestURI query).resp =
        ⟨200, some "image/png", some cp.timestamp, some (cp.timestamp + hour),
          Body.bytes cp.bytes⟩) ∧
    (∀ (i : Img) (bs : List ℕ) (err : Option String),
      pngCache.Get (fsNameFromURL requestURI) = none →
      gen ⟨query⟩ = Except.ok i → encode i = (bs, err) →
      (drawFractal false gen encode pngCache now requestURI query).resp =
        ⟨200, some "image/png", some now, some (now + hour), Body.bytes bs⟩) ∧
    (∀ (i : Img) (bs : List ℕ) (err : Option String),
      gen ⟨query⟩ = Except.ok i → encode i = (bs, err) →
      (drawFractal true gen encode pngCache now requestURI query).resp =
        ⟨200, none, none, none, Body.bytes bs⟩) := by
  refine ⟨?_, ?_, ?_⟩
  · intro cp hget
    simp [drawFractal, hget, respondCached]
  · intro i bs err hget hgen henc
    simp [drawFractal, hget, hgen, henc, respondCached]
  · intro i bs err hgen henc
    simp [drawFractal, hgen, henc]

/-- C4 witness: a cache hit under the key of /m?a=1 with entry
(timestamp 5, bytes [9]) is served with both freshness headers. -/
theorem drawFractal_success_headers_witness :
    (drawFractal false (fun _ : Options => Except.ok ()) (fun _ : Unit => ([], none))
        [("/m/a=1", ⟨5, [9]⟩)] 0 "/m?a=1" [("a", ["1"])]).resp =
      ⟨200, some "image/png", some 5, some (5 + hour), Body.bytes [9]⟩ :=
  (drawFractal_success_headers (fun _ : Options => Except.ok ())
    (fun _ : Unit => ([], none)) [("/m/a=1", ⟨5, [9]⟩)] 0 "/m?a=1" [("a", ["1"])]).1
    ⟨5, [9]⟩ (by decide)

/-- C5 counterexample: with the cache enabled and an encoder that
reports an error, the handler still responds 200 (the png.Encode return
value is discarded), against the claim that an encoding failure is
handled like a generator failure with a 500. -/
theorem drawFractal_encode_failure_not_500 :
    (drawFractal false (fun _ : Options => Except.ok ()) (fun _ : Unit => ([], some "boom"))
        [] 0 "/m?x=1" [("x", ["1"])]).resp.status = 200 := rfl

/-- C5 amended: a generator construction failure yields status 500 with
the error text and no image bytes, in both the cache-disabled and the
cache-enabled-miss paths; a PNG encoding failure, however, is ignored:
the handler proceeds with whatever bytes the encoder produced and
responds 200. -/
theorem drawFractal_error_handling {Img : Type} (gen : Options → Except String Img)
    (encode : Img → List ℕ × Option String) (pngCache : Cache) (now : ℤ)
    (requestURI : String) (query : Values) :
    (∀ e : String, gen ⟨query⟩ = Except.error e →
      (drawFractal true gen encode pngCache now requestURI query).resp =
        ⟨500, some "text/plain; charset=utf-8", none, none, Body.text (e ++ "\n")⟩) ∧
    (∀ e : String, pngCache.Get (fsNameFromURL requestURI) = none →
      gen ⟨query⟩ = Except.error e →
      (drawFractal false gen encode pngCache now requestURI query).resp =
        ⟨500, some "text/plain; charset=utf-8", none, none, Body.text (e ++ "\n")⟩) ∧
    (∀ (i : Img) (bs : List ℕ) (err : String), gen ⟨query⟩ = Except.ok i →
      encode i = (bs, some err) →
      (drawFractal true gen encode pngCache now requestURI query).resp.status = 200 ∧
      (drawFractal true gen encode pngCache now requestURI query).resp.body =
        Body.bytes bs) ∧
    (∀ (i : Img) (bs : List ℕ) (err : String),
      pngCache.Get (fsNameFromURL requestURI) = none → gen ⟨query⟩ = Except.ok i →
      encode i = (bs, some err) →
      (drawFractal false gen encode pngCache now requestURI query).resp.status = 200 ∧
      (drawFractal false gen encode pngCache now requestURI query).resp.body =
        Body.bytes bs) := by
  refine ⟨?_, ?_, ?_, ?_⟩
  · intro e hgen
    simp [drawFractal, hgen, httpError]
  · intro e hget hgen
    simp [drawFractal, hget, hgen, httpError]
  · intro i bs err hgen henc
    simp [drawFractal, hgen, henc]
  · intro i bs err hget hgen henc
    simp [drawFractal, hget, hgen, henc, respondCached]

/-- C5 witness: a generator failing with text bad yields exactly the
500 error response in the cache-disabled path. -/
theorem drawFractal_error_handling_witness :
    (drawFractal true (fun _ : Options => Except.error "bad") (fun _ : Unit => ([], none))
        [] 0 "/m?x=1" [("x", ["1"])]).resp =
      ⟨500, some "text/plain; charset=utf-8", none, none, Body.text ("bad" ++ "\n")⟩ :=
  (drawFractal_error_handling (fun _ : Options => Except.error "bad")
    (fun _ : Unit => ([], none)) [] 0 "/m?x=1" [("x", ["1"])]).1 "bad" rfl

/-- C9: with the cache-disable flag set a request leaves the tile cache
unchanged, starts no disk persistence and always invokes the generator,
so two identical requests invoke it twice; with the flag unset, a
second identical request after a completed first one is a cache hit:
the generator is not invoked again and the same response is served. -/
theorem drawFractal_cache_bypass {Img : Type} (gen : Options → Except String Img)
    (encode : Img → List ℕ × Option String) (pngCache : Cache) (now now2 : ℤ)
    (requestURI : String) (query : Values) :
    ((drawFractal true gen encode pngCache now requestURI query).cache = pngCache ∧
     (drawFractal true gen encode pngCache now requestURI query).persistKey = none ∧
     (drawFractal true gen encode pngCache now requestURI query).genCalled = true ∧
     (drawFractal true gen encode
        (drawFractal true gen encode pngCache now requestURI query).cache
        now2 requestURI query).genCalled = true) ∧
    (∀ i : Img, pngCache.Get (fsNameFromURL requestURI) = none →
      gen ⟨query⟩ = Except.ok i →
      (drawFractal true gen encode pngCache now requestURI query).genCalled = true ∧
      (drawFractal false gen encode pngCache now requestURI query).genCalled = true ∧
      (drawFractal false gen encode
          (drawFractal false gen encode pngCache now requestURI query).cache
          now2 requestURI query).genCalled = false ∧
      (drawFractal false gen encode
          (drawFractal false gen encode pngCache now requestURI query).cache
          now2 requestURI query).resp =
        (drawFractal false gen encode pngCache now requestURI query).resp) := by
  constructor
  · cases hgen : gen ⟨query⟩ with
    | error e => simp [drawFractal, hgen]
    | ok i => simp [drawFractal, hgen]
  · intro i hget hgen
    cases henc : encode i with
    | mk bs err =>
      have hc : (drawFractal false gen encode pngCache now requestURI query).cache =
          pngCache.Add (fsNameFromURL requestURI) ⟨now, bs⟩ := by
        simp [drawFractal, hget, hgen, henc]
      have hhit : (pngCache.Add (fsNameFromURL requestURI)
          (⟨now, bs⟩ : CachedPng)).Get (fsNameFromURL requestURI) = some ⟨now, bs⟩ :=
        Cache.get_add_self _ _ _
      refine ⟨by simp [drawFractal, hgen], by simp [drawFractal, hget, hgen], ?_, ?_⟩
      · rw [hc]
        simp [drawFractal, hhit]
      · rw [hc]
        simp [drawFractal, hhit, hget, hgen, henc, respondCached]

/-- C9 witness: with a successful generator and empty initial cache,
the enabled second identical request is a cache hit and the disabled
path invokes the generator on both requests. -/
theorem drawFractal_cache_bypass_witness :
    (drawFractal false (fun _ : Options => Except.ok ()) (fun _ : Unit => ([7], none))
        [] 0 "/m?a=1" [("a", ["1"])]).genCalled = true ∧
    (drawFractal false (fun _ : Options => Except.ok ()) (fun _ : Unit => ([7], none))
        (drawFractal false (fun _ : Options => Except.ok ()) (fun _ : Unit => ([7], none))
          [] 0 "/m?a=1" [("a", ["1"])]).cache
        3 "/m?a=1" [("a", ["1"])]).genCalled = false :=
  ⟨((drawFractal_cache_bypass (fun _ : Options => Except.ok ()) (fun _ : Unit => ([7], none))
      [] 0 3 "/m?a=1" [("a", ["1"])]).2 () rfl rfl).2.1,
   ((drawFractal_cache_bypass (fun _ : Options => Except.ok ()) (fun _ : Unit => ([7], none))
      [] 0 3 "/m?a=1" [("a", ["1"])]).2 () rfl rfl).2.2.1⟩
